import Mathlib

set_option maxHeartbeats 1000000

/- Shallow embedding of client/src/full/mod.rs (Conflux full client):
   the startup sequencer (FullClient::start), the background usage reporter
   thread, the shutdown coordinator (FullClient::close / wait_for_drop) and the
   run-until-closed driver (FullClient::run_until_closed).

   Time is discretised to whole seconds for the shutdown poll loop and to loop
   iterations for the usage reporter.  Weak-pointer liveness is modelled by a
   boolean function of discrete time.  External collaborators (database, network,
   sync service, RPC binding, file IO and JSON parsing) are modelled as oracle
   results supplied in an environment record, since they are outside the visible
   source. -/

namespace FullNode

/-- Block records of the recorded test chain file; only their identity matters
    for the lifecycle logic, so they are modelled as naturals. -/
abbrev RpcBlock := Nat

/-- Primitive blocks produced by RpcBlock::into_primitive. -/
abbrev Block := Nat

/-! ## Background usage reporter (lines 122-141)

The thread loops: wait on the exit condvar with a 5000 ms timeout; on timeout
it upgrades the weak pointer to the storage manager, returning if the upgrade
fails and logging usage otherwise; if the wait was signalled it returns. -/

/-- Wait timeout of the usage reporter loop: Duration::from_millis(5000). -/
def reporter_wait_ms : Nat := 5000

/-- What the reporter observes in one loop iteration: whether the condvar wait
    timed out (no shutdown signal yet) and whether the weak pointer to the
    storage manager still upgrades. -/
structure ReporterObs where
  timed_out : Bool
  upgrades : Bool
  deriving DecidableEq

inductive ReporterEvent where
  | logUsage
  deriving DecidableEq

/-- The usage reporter thread body, run over a finite schedule of observations;
    the returned list is the sequence of emitted usage snapshots.  Returning
    before consuming the whole schedule models thread termination. -/
def reporter_run : List ReporterObs → List ReporterEvent
  | [] => []
  | o :: rest =>
      if o.timed_out then
        if o.upgrades then ReporterEvent.logUsage :: reporter_run rest
        else []
      else []

/-! ## Exit signal flag (lines 397-403)

The CtrlC handler installed by run_until_closed does `*e.0.lock() = true` and
notifies; it is the only writer of the flag in the visible source. -/

/-- The flag write performed by the CtrlC handler body: it ignores the current
    value and stores true. -/
def ctrlc_handler_write (_flag : Bool) : Bool := true

/-- Exit flag after n invocations of the CtrlC handler, starting from f0. -/
def exit_flag_after (f0 : Bool) : Nat → Bool
  | 0 => f0
  | n + 1 => ctrlc_handler_write (exit_flag_after f0 n)

/-! ## Shutdown coordinator (lines 363-392)

close(handle) destructures the handle into the weak ledger-db pointer, the
block generator and a box of the remaining owners, stops the block generator,
drops it, drops the box, then polls the weak pointer in wait_for_drop. -/

inductive CloseEvent where
  | stopBlockGen
  | dropBlockGen
  | dropOthers
  | pollStorage (t : Nat)
  | warnSlow
  | warnTimeout
  deriving DecidableEq

/-- sleep_duration of wait_for_drop, in seconds. -/
def sleep_duration_s : Nat := 1

/-- warn_timeout of wait_for_drop, in seconds. -/
def warn_timeout_s : Nat := 10

/-- max_timeout of wait_for_drop, in seconds. -/
def max_timeout_s : Nat := 60

/-- The wait_for_drop loop.  `alive t` tells whether the weak pointer still
    upgrades at elapsed second t.  Each iteration: the loop guard has already
    checked elapsed < max_timeout (encoded by the fuel); check the upgrade and
    return cleanly if it failed; warn once when elapsed exceeds warn_timeout;
    sleep one second.  Returns (events, clean, seconds slept). -/
def wait_loop (alive : Nat → Bool) : Nat → Nat → Bool → List CloseEvent × Bool × Nat
  | 0, t, _ => ([CloseEvent.warnTimeout], false, t)
  | fuel + 1, t, warned =>
      if alive t then
        if !warned && decide (warn_timeout_s < t) then
          (CloseEvent.pollStorage t :: CloseEvent.warnSlow ::
              (wait_loop alive fuel (t + 1) true).1,
           (wait_loop alive fuel (t + 1) true).2)
        else
          (CloseEvent.pollStorage t :: (wait_loop alive fuel (t + 1) warned).1,
           (wait_loop alive fuel (t + 1) warned).2)
      else ([CloseEvent.pollStorage t], true, t)

/-- FullClient::wait_for_drop: poll from elapsed 0, not yet warned, giving up
    once elapsed reaches max_timeout (60 one-second sleeps). -/
def wait_for_drop (alive : Nat → Bool) : List CloseEvent × Bool × Nat :=
  wait_loop alive max_timeout_s 0 false

/-- FullClient::close: stop the block generator, drop its reference, drop the
    box of remaining owning references, then wait for the ledger-db weak
    pointer to stop upgrading. -/
def close (alive : Nat → Bool) : List CloseEvent × Bool × Nat :=
  (CloseEvent.stopBlockGen :: CloseEvent.dropBlockGen :: CloseEvent.dropOthers ::
      (wait_for_drop alive).1,
   (wait_for_drop alive).2)

/-- Events that belong to the storage-handle polling phase of close. -/
def is_wait_phase : CloseEvent → Bool
  | CloseEvent.pollStorage _ => true
  | CloseEvent.warnSlow => true
  | CloseEvent.warnTimeout => true
  | _ => false

lemma wait_loop_events (alive : Nat → Bool) :
    ∀ fuel t warned, ∀ e ∈ (wait_loop alive fuel t warned).1, is_wait_phase e = true := by
  intro fuel
  induction fuel with
  | zero =>
      intro t warned e he
      simp only [wait_loop, List.mem_singleton] at he
      subst he; rfl
  | succ n ih =>
      intro t warned e he
      rw [wait_loop] at he
      split at he
      · split at he
        · simp only [List.mem_cons] at he
          rcases he with he | he | he
          · subst he; rfl
          · subst he; rfl
          · exact ih (t + 1) true e he
        · simp only [List.mem_cons] at he
          rcases he with he | he
          · subst he; rfl
          · exact ih (t + 1) warned e he
      · simp only [List.mem_singleton] at he
        subst he; rfl

lemma wait_loop_sleeps_le (alive : Nat → Bool) :
    ∀ fuel t warned, (wait_loop alive fuel t warned).2.2 ≤ t + fuel := by
  intro fuel
  induction fuel with
  | zero => intro t warned; simp [wait_loop]
  | succ n ih =>
      intro t warned
      rw [wait_loop]
      split
      · split
        · have h := ih (t + 1) true
          simp only []
          omega
        · have h := ih (t + 1) warned
          simp only []
          omega
      · simp only []
        omega

lemma wait_loop_first_dead (alive : Nat → Bool) :
    ∀ fuel t warned t0, t ≤ t0 → t0 < t + fuel → alive t0 = false →
      (∀ u, t ≤ u → u < t0 → alive u = true) →
      (wait_loop alive fuel t warned).2 = (true, t0) := by
  intro fuel
  induction fuel with
  | zero => intro t warned t0 h1 h2 _ _; omega
  | succ n ih =>
      intro t warned t0 h1 h2 hdead hmin
      rcases Nat.lt_or_ge t t0 with hlt | hge
      · have hat : alive t = true := hmin t (Nat.le_refl t) hlt
        rw [wait_loop]
        rw [hat]
        simp only [if_true]
        split
        · exact ih (t + 1) true t0 hlt (by omega) hdead
            (fun u hu1 hu2 => hmin u (by omega) hu2)
        · exact ih (t + 1) warned t0 hlt (by omega) hdead
            (fun u hu1 hu2 => hmin u (by omega) hu2)
      · have heq : t = t0 := by omega
        subst heq
        rw [wait_loop, hdead]
        simp

/-! ## Run-until-closed driver (lines 394-411)

Modelled as a transition system: the CtrlC handler (interrupt) may fire at any
time, setting the flag and notifying the condvar; the main thread checks the
flag under the lock, waits if it is false, and calls close after the check or
the wake.  parking_lot condvar waits have no spurious wakeups, so a wake step
requires a notification to have happened. -/

inductive MainPC where
  | entry
  | waiting
  | closing
  | done
  deriving DecidableEq

structure DriverState where
  flag : Bool
  notified : Bool
  pc : MainPC
  deriving DecidableEq

/-- One step of the run_until_closed system.  interrupt is the CtrlC handler
    (sets the flag to true and notifies); checkTrue/checkFalse is the main
    thread reading the flag under the lock; wake is the condvar wait returning,
    which requires a notification; callClose is the call to FullClient::close. -/
inductive DStep : DriverState → DriverState → Prop where
  | interrupt (s : DriverState) : DStep s ⟨true, true, s.pc⟩
  | checkTrue (s : DriverState) (hpc : s.pc = MainPC.entry) (hf : s.flag = true) :
      DStep s ⟨s.flag, s.notified, MainPC.closing⟩
  | checkFalse (s : DriverState) (hpc : s.pc = MainPC.entry) (hf : s.flag = false) :
      DStep s ⟨s.flag, s.notified, MainPC.waiting⟩
  | wake (s : DriverState) (hpc : s.pc = MainPC.waiting) (hn : s.notified = true) :
      DStep s ⟨s.flag, s.notified, MainPC.closing⟩
  | callClose (s : DriverState) (hpc : s.pc = MainPC.closing) :
      DStep s ⟨s.flag, s.notified, MainPC.done⟩

/-- Initial driver state: exit flag as given, no notification yet, main thread
    about to check the flag. -/
def driver_init (f0 : Bool) : DriverState := ⟨f0, false, MainPC.entry⟩

inductive DReachable (f0 : Bool) : DriverState → Prop where
  | init : DReachable f0 (driver_init f0)
  | step {s s' : DriverState} : DReachable f0 s → DStep s s' → DReachable f0 s'

lemma driver_inv (f0 : Bool) (s : DriverState) (h : DReachable f0 s) :
    (s.notified = true → s.flag = true) ∧
    (f0 = true → s.flag = true) ∧
    ((s.pc = MainPC.closing ∨ s.pc = MainPC.done) → s.flag = true) ∧
    (f0 = true → s.pc ≠ MainPC.waiting) := by
  induction h with
  | init =>
      refine ⟨?_, ?_, ?_, ?_⟩ <;> simp [driver_init]
  | step hr hst ih =>
      rename_i s1 s2
      obtain ⟨ih1, ih2, ih3, ih4⟩ := ih
      cases hst with
      | interrupt =>
          refine ⟨fun _ => rfl, fun _ => rfl, fun _ => rfl, fun hf0 => ?_⟩
          simpa using ih4 hf0
      | checkTrue hpc hf =>
          refine ⟨fun hn => ih1 hn, fun hf0 => ih2 hf0, fun _ => hf, fun _ => ?_⟩
          simp
      | checkFalse hpc hf =>
          refine ⟨fun hn => ih1 hn, fun hf0 => ih2 hf0, ?_, fun hf0 => ?_⟩
          · intro hc; simp at hc
          · exact absurd (ih2 hf0) (by simp [hf])
      | wake hpc hn =>
          refine ⟨fun _ => ih1 hn, fun hf0 => ih2 hf0, fun _ => ih1 hn, fun _ => ?_⟩
          simp
      | callClose hpc =>
          refine ⟨fun hn => ih1 hn, fun hf0 => ih2 hf0, fun _ => ih3 (Or.inl hpc),
            fun _ => ?_⟩
          simp

/-! ## Claim theorems for the reporter, exit flag, shutdown and driver -/

/-- Claim C1: close first stops the block generator, then drops the block
    generator reference, then drops the remaining owning references, and only
    after all of these does the storage-handle polling phase begin: every later
    event belongs to the wait phase.  This holds for every liveness history of
    the weak pointer, i.e. for every call to close. -/
theorem close_shutdown_order (alive : Nat → Bool) :
    ∃ ws, (close alive).1 =
        CloseEvent.stopBlockGen :: CloseEvent.dropBlockGen :: CloseEvent.dropOthers :: ws ∧
      ∀ e ∈ ws, is_wait_phase e = true := by
  refine ⟨(wait_for_drop alive).1, rfl, ?_⟩
  intro e he
  exact wait_loop_events alive max_timeout_s 0 false e he

/-- Claim C2: close always returns: it sleeps at most 60 seconds in total even
    if the storage handle is never released, and if the weak pointer first
    stops upgrading at second t < 60 then the poll loop returns cleanly right
    there, having slept exactly t seconds. -/
theorem close_bounded_and_prompt (alive : Nat → Bool) :
    (close alive).2.2 ≤ max_timeout_s ∧
    (∀ t, t < max_timeout_s → alive t = false → (∀ u, u < t → alive u = true) →
      (close alive).2.1 = true ∧ (close alive).2.2 = t) := by
  constructor
  · have h := wait_loop_sleeps_le alive max_timeout_s 0 false
    simpa [close, wait_for_drop] using h
  · intro t ht hdead hmin
    have h := wait_loop_first_dead alive max_timeout_s 0 false t (Nat.zero_le t)
      (by omega) hdead (fun u _ hu => hmin u hu)
    constructor
    · show (wait_for_drop alive).2.1 = true
      rw [wait_for_drop, h]
    · show (wait_for_drop alive).2.2 = t
      rw [wait_for_drop, h]

/-- Concrete liveness history for the C2 witness: the weak pointer upgrades at
    seconds 0, 1, 2 and fails from second 3 on. -/
def alive_ex : Nat → Bool := fun t => decide (t < 3)

/-- Witness for C2 at alive_ex: clean shutdown after exactly 3 seconds. -/
theorem close_bounded_and_prompt_witness :
    (close alive_ex).2.1 = true ∧ (close alive_ex).2.2 = 3 :=
  (close_bounded_and_prompt alive_ex).2 3 (by decide) (by decide)
    (fun u hu => by simp [alive_ex]; omega)

/-- Claim C7: each reporter iteration waits with the 5000 ms timeout; on
    timeout with a failed upgrade it terminates without emitting, on timeout
    with a successful upgrade it emits exactly one snapshot and repeats, and
    when signalled before the timeout it terminates immediately without
    emitting. -/
theorem reporter_step_behaviour (o : ReporterObs) (rest : List ReporterObs) :
    reporter_wait_ms = 5000 ∧
    (o.timed_out = true → o.upgrades = false → reporter_run (o :: rest) = []) ∧
    (o.timed_out = true → o.upgrades = true →
      reporter_run (o :: rest) = ReporterEvent.logUsage :: reporter_run rest) ∧
    (o.timed_out = false → reporter_run (o :: rest) = []) := by
  refine ⟨rfl, ?_, ?_, ?_⟩
  · intro h1 h2; simp [reporter_run, h1, h2]
  · intro h1 h2; simp [reporter_run, h1, h2]
  · intro h1; simp [reporter_run, h1]

/-- Witness for C7: a timed-out live iteration emits one snapshot, then a
    signalled iteration terminates. -/
theorem reporter_step_behaviour_witness :
    reporter_run [⟨true, true⟩, ⟨false, true⟩] = [ReporterEvent.logUsage] := by
  have h2 := (reporter_step_behaviour ⟨true, true⟩ [⟨false, true⟩]).2.2.1 rfl rfl
  rw [h2]
  have h3 := (reporter_step_behaviour ⟨false, true⟩ []).2.2.2 rfl
  rw [h3]

/-- Claim C8: the CtrlC handler only ever writes true, so the exit flag is
    monotone (once true it stays true under further triggers, hence at most one
    false-to-true transition and no reset), and any trigger after the first
    leaves the flag unchanged. -/
theorem exit_flag_monotone_once (f0 : Bool) :
    (∀ n m, n ≤ m → exit_flag_after f0 n = true → exit_flag_after f0 m = true) ∧
    (∀ n, 1 ≤ n → exit_flag_after f0 n = exit_flag_after f0 1) ∧
    (∀ f, ctrlc_handler_write f = true) := by
  refine ⟨?_, ?_, fun _ => rfl⟩
  · intro n m hnm htrue
    induction m with
    | zero =>
        have : n = 0 := Nat.le_zero.mp hnm
        subst this; exact htrue
    | succ k ih => rfl
  · intro n hn
    cases n with
    | zero => omega
    | succ k => rfl

/-- Witness for C8: after one trigger from an already-true flag the flag is
    still true. -/
theorem exit_flag_monotone_once_witness : exit_flag_after true 1 = true :=
  (exit_flag_monotone_once true).1 0 1 (Nat.zero_le 1) rfl

/-- Claim C9: in every reachable driver state, close is only enabled once the
    exit flag is true (the main thread never calls close while the flag is
    false); if the flag was already true on entry the waiting state is
    unreachable (close without waiting); whenever the main thread has passed
    the gate it can invoke close; and from an un-notified wait no step lets the
    main thread proceed (it blocks until the signal). -/
theorem run_until_closed_gate (f0 : Bool) (s : DriverState) (h : DReachable f0 s) :
    ((s.pc = MainPC.closing ∨ s.pc = MainPC.done) → s.flag = true) ∧
    (f0 = true → s.pc ≠ MainPC.waiting) ∧
    (s.pc = MainPC.closing → DStep s ⟨s.flag, s.notified, MainPC.done⟩) ∧
    (s.pc = MainPC.waiting → s.notified = false →
      ∀ s', DStep s s' → s'.pc = MainPC.waiting) := by
  obtain ⟨inv1, inv2, inv3, inv4⟩ := driver_inv f0 s h
  refine ⟨inv3, inv4, fun hpc => DStep.callClose s hpc, ?_⟩
  intro hpc hn s' hst
  cases hst with
  | interrupt => simpa using hpc
  | checkTrue hpc2 hf => rw [hpc] at hpc2; cases hpc2
  | checkFalse hpc2 hf => rfl
  | wake hpc2 hn2 => rw [hn] at hn2; cases hn2
  | callClose hpc2 => rw [hpc] at hpc2; cases hpc2

/-- Witness for C9: along the concrete trace entry, check-false, interrupt,
    wake, the state that is about to call close has the flag set. -/
theorem run_until_closed_gate_witness :
    (⟨true, true, MainPC.closing⟩ : DriverState).flag = true := by
  have h0 : DReachable false (driver_init false) := DReachable.init
  have h1 : DReachable false ⟨false, false, MainPC.waiting⟩ :=
    DReachable.step h0 (DStep.checkFalse (driver_init false) rfl rfl)
  have h2 : DReachable false ⟨true, true, MainPC.waiting⟩ :=
    DReachable.step h1 (DStep.interrupt ⟨false, false, MainPC.waiting⟩)
  have h3 : DReachable false ⟨true, true, MainPC.closing⟩ :=
    DReachable.step h2 (DStep.wake ⟨true, true, MainPC.waiting⟩ rfl rfl)
  exact (run_until_closed_gate false ⟨true, true, MainPC.closing⟩ h3).1 (Or.inl rfl)

/-! ## Startup sequencer (FullClient::start, lines 86-361)

start is modelled in a small state-plus-failure monad: the state is the list of
emitted lifecycle events (thread spawns, subsystem starts, block submissions)
and failure is either an error value returned to the caller (Err / the ?
operator) or a process abort (panic! / unwrap / expect).  External collaborator
results are supplied by an Env record of oracles.  Purely plumbed numeric
configuration (pool sizes, ports, cache limits) does not influence control flow
and is omitted. -/

inductive StartEvent where
  | enableMetrics
  | spawnUsageReporter
  | initGenesis
  | startNetwork
  | registerSync
  | registerDataProp
  | submitBlock (b : Block)
  | spawnMiningThread
  | spawnTxGenThread
  | bindDebugHttp
  | bindTcp
  | bindHttp
  deriving DecidableEq

inductive Abort where
  | errReturn (msg : String)
  | panicked (msg : String)
  deriving DecidableEq

def StartM (α : Type) : Type :=
  List StartEvent → Except Abort α × List StartEvent

def spure {α : Type} (a : α) : StartM α := fun evs => (Except.ok a, evs)

def sbind {α β : Type} (m : StartM α) (f : α → StartM β) : StartM β := fun evs =>
  match m evs with
  | (Except.ok a, evs1) => f a evs1
  | (Except.error e, evs1) => (Except.error e, evs1)

instance : Monad StartM where
  pure := spure
  bind := sbind

@[simp] lemma bind_eq_sbind {α β : Type} (m : StartM α) (f : α → StartM β) :
    (m >>= f) = sbind m f := rfl

@[simp] lemma pure_eq_spure {α : Type} (a : α) : (pure a : StartM α) = spure a := rfl

/-- Record a lifecycle event. -/
def emitEv (e : StartEvent) : StartM Unit := fun evs => (Except.ok (), evs ++ [e])

/-- Abort the computation. -/
def sthrow {α : Type} (e : Abort) : StartM α := fun evs => (Except.error e, evs)

/-- The ? operator, optionally after map_err prepending a stage tag: an Err
    result is returned to the caller. -/
def qmark {α : Type} (tag : String) (r : Except String α) : StartM α :=
  match r with
  | Except.ok a => spure a
  | Except.error e => sthrow (Abort.errReturn (tag ++ e))

/-- Result::unwrap: an Err result aborts the process. -/
def unwrapRes {α : Type} (r : Except String α) : StartM α :=
  match r with
  | Except.ok a => spure a
  | Except.error _ => sthrow (Abort.panicked "called unwrap on an Err value")

/-- Result::expect with a custom panic message. -/
def expectRes {α : Type} (msg : String) (r : Except String α) : StartM α :=
  match r with
  | Except.ok a => spure a
  | Except.error _ => sthrow (Abort.panicked msg)

/-- Option::unwrap: None aborts the process. -/
def unwrapOpt {α : Type} (o : Option α) : StartM α :=
  match o with
  | some a => spure a
  | none => sthrow (Abort.panicked "called unwrap on a None value")

/-- The fields of Configuration / raw_conf that influence control flow in
    FullClient::start. -/
structure Conf where
  metrics_enabled : Bool
  db_dir : Option String
  test_mode : Bool
  genesis_accounts : Option String
  data_propagate_enabled : Bool
  test_chain_path : Option String
  mining_author : Option String
  start_mining : Bool
  generate_tx : Bool
  deriving DecidableEq

/-- Oracle results of the external collaborators invoked by start, in source
    order.  Each is the result the collaborator would produce if called. -/
structure Env where
  netConfig : Except String Unit
  openDatabase : Except String Unit
  genesisLoadFile : String → Except String Unit
  networkStart : Except String Unit
  syncRegister : Except String Unit
  dataPropRegister : Except String Unit
  netKeyPair : Except String Unit
  openFile : String → Except String Unit
  parseBlocks : Except String (List RpcBlock)
  intoPrimitive : RpcBlock → Except String Block
  newHttpDebug : Except String Unit
  newTcp : Except String Unit
  newHttpPublic : Except String Unit

def isHexDigitChar (c : Char) : Bool :=
  c.isDigit || (('a' ≤ c && c ≤ 'f') || ('A' ≤ c && c ≤ 'F'))

def hexVal (c : Char) : Nat :=
  if c.isDigit then c.toNat - '0'.toNat
  else if 'a' ≤ c && c ≤ 'f' then c.toNat - 'a'.toNat + 10
  else c.toNat - 'A'.toNat + 10

/-- Address::from_str for a 160-bit address: exactly 40 hex digits with no 0x
    marker, read as a base-16 numeral. -/
def address_from_str (s : String) : Except String Nat :=
  if s.length = 40 && s.toList.all isHexDigitChar then
    Except.ok (s.toList.foldl (fun n c => n * 16 + hexVal c) 0)
  else Except.error "Invalid character or length"

/-- Lines 89-234 of start: metrics setup, configuration, database open (with an
    unwrap of db_dir), storage manager, usage-reporter spawn, genesis accounts,
    genesis initialisation, data manager, transaction pool, consensus, network
    start (unwrap), sync registration (unwrap), optional data propagation,
    transaction generators (net_key_pair unwrap). -/
def startPre (conf : Conf) (env : Env) : StartM Unit := do
  if conf.metrics_enabled then emitEv StartEvent.enableMetrics
  let _ ← qmark "" env.netConfig
  let _ ← unwrapOpt conf.db_dir
  let _ ← qmark "Failed to open database " env.openDatabase
  emitEv StartEvent.spawnUsageReporter
  if conf.test_mode then
    match conf.genesis_accounts with
    | some file => do
        let _ ← qmark "" (env.genesisLoadFile file)
    | none => spure ()
  else spure ()
  emitEv StartEvent.initGenesis
  let _ ← unwrapRes env.networkStart
  emitEv StartEvent.startNetwork
  let _ ← unwrapRes env.syncRegister
  emitEv StartEvent.registerSync
  if conf.test_mode && conf.data_propagate_enabled then do
    let _ ← qmark "" env.dataPropRegister
    emitEv StartEvent.registerDataProp
  let _ ← unwrapRes env.netKeyPair
  spure ()

/-- The replay loop body (lines 252-257): convert each remaining record and
    submit it to the sync service. -/
def replayLoop (env : Env) : List RpcBlock → StartM Unit
  | [] => spure ()
  | b :: rest => do
      let pb ← qmark "Failed to convert from a rpc_block to primitive block "
        (env.intoPrimitive b)
      emitEv (StartEvent.submitBlock pb)
      replayLoop env rest

/-- Lines 236-258 of start: optional replay of a recorded chain file — open it,
    parse the record list, fail if empty, then submit every record after the
    first in file order. -/
def startReplay (conf : Conf) (env : Env) : StartM Unit :=
  match conf.test_chain_path with
  | none => spure ()
  | some chain_path => do
      let _ ← qmark "Failed to open test-chain file " (env.openFile chain_path)
      let rpc_blocks ← qmark "Failed to parse blocks from json " env.parseBlocks
      if rpc_blocks.isEmpty then
        sthrow (Abort.errReturn "Error: The json data should not be empty.")
      else replayLoop env (rpc_blocks.drop 1)

/-- Line 260 of start: the configured mining author, when present, is parsed
    unconditionally, with expect (a parse failure aborts the process). -/
def startAuthor (conf : Conf) : StartM (Option Nat) :=
  match conf.mining_author with
  | none => spure none
  | some hex_str => do
      let a ← expectRes "mining-author should be 40-digit hex string without 0x marker"
        (address_from_str hex_str)
      spure (some a)

/-- The handle returned by a successful start; only the author actually passed
    to the block generator is retained here. -/
structure FullClientHandle where
  mining_author_used : Nat
  deriving DecidableEq

/-- Lines 261-361 of start: block generator construction, the mining-enabled
    check (panic when no author is configured, else spawn the mining thread),
    the optional transaction-generation thread, and the three RPC servers. -/
def startTail (conf : Conf) (env : Env) (maybe_author : Option Nat) :
    StartM FullClientHandle := do
  if conf.start_mining then
    match maybe_author with
    | none => sthrow (Abort.panicked
        "mining-author is not set correctly, so you will not get mining rewards!!!")
    | some _ => emitEv StartEvent.spawnMiningThread
  if conf.generate_tx then emitEv StartEvent.spawnTxGenThread
  let _ ← qmark "" env.newHttpDebug
  emitEv StartEvent.bindDebugHttp
  let _ ← qmark "" env.newTcp
  emitEv StartEvent.bindTcp
  let _ ← qmark "" env.newHttpPublic
  emitEv StartEvent.bindHttp
  spure { mining_author_used := maybe_author.getD 0 }

/-- FullClient::start as the sequence of its stages. -/
def start (conf : Conf) (env : Env) : StartM FullClientHandle := do
  startPre conf env
  startReplay conf env
  let maybe_author ← startAuthor conf
  startTail conf env maybe_author

def startRun (conf : Conf) (env : Env) :
    Except Abort FullClientHandle × List StartEvent :=
  start conf env []

def startOutcome (conf : Conf) (env : Env) : Except Abort FullClientHandle :=
  (startRun conf env).1

def startEvents (conf : Conf) (env : Env) : List StartEvent :=
  (startRun conf env).2

def isPanicOutcome : Except Abort FullClientHandle → Bool
  | Except.error (Abort.panicked _) => true
  | _ => false

def isErrReturnOutcome : Except Abort FullClientHandle → Bool
  | Except.error (Abort.errReturn _) => true
  | _ => false

/-- The blocks submitted to the sync service, in order, as recorded in the
    event trace. -/
def submittedOf (evs : List StartEvent) : List Block :=
  evs.filterMap fun e =>
    match e with
    | StartEvent.submitBlock b => some b
    | _ => none

/-! ## Reduction lemmas for the start stages -/

lemma run_sbind_ok {α β : Type} {m : StartM α} {f : α → StartM β}
    {evs evs1 : List StartEvent} {a : α} (h : m evs = (Except.ok a, evs1)) :
    sbind m f evs = f a evs1 := by
  simp [sbind, h]

lemma run_sbind_err {α β : Type} {m : StartM α} {f : α → StartM β}
    {evs evs1 : List StartEvent} {e : Abort} (h : m evs = (Except.error e, evs1)) :
    sbind m f evs = (Except.error e, evs1) := by
  simp [sbind, h]

/-- The stages of start before the replay step all succeed. -/
def PreOk (conf : Conf) (env : Env) : Prop :=
  env.netConfig = Except.ok () ∧
  conf.db_dir ≠ none ∧
  env.openDatabase = Except.ok () ∧
  (∀ f, env.genesisLoadFile f = Except.ok ()) ∧
  env.networkStart = Except.ok () ∧
  env.syncRegister = Except.ok () ∧
  env.dataPropRegister = Except.ok () ∧
  env.netKeyPair = Except.ok ()

/-- The events a successful startPre emits, in order. -/
def preEvents (conf : Conf) : List StartEvent :=
  (if conf.metrics_enabled then [StartEvent.enableMetrics] else []) ++
  [StartEvent.spawnUsageReporter, StartEvent.initGenesis,
   StartEvent.startNetwork, StartEvent.registerSync] ++
  (if conf.test_mode && conf.data_propagate_enabled then
    [StartEvent.registerDataProp] else [])

lemma startPre_ok (conf : Conf) (env : Env) (h : PreOk conf env)
    (evs : List StartEvent) :
    startPre conf env evs = (Except.ok (), evs ++ preEvents conf) := by
  obtain ⟨hnet, hdb, hopen, hgen, hns, hsr, hdp, hkp⟩ := h
  cases hdbe : conf.db_dir with
  | none => exact absurd hdbe hdb
  | some d =>
      cases hm : conf.metrics_enabled <;>
      cases ht : conf.test_mode <;>
      cases hga : conf.genesis_accounts <;>
      cases hdpe : conf.data_propagate_enabled <;>
      simp [startPre, preEvents, sbind, spure, emitEv, qmark, sthrow, unwrapRes,
        unwrapOpt, hnet, hopen, hgen, hns, hsr, hdp, hkp, hdbe, hm, ht, hga, hdpe]

lemma preEvents_no_submit (conf : Conf) : submittedOf (preEvents conf) = [] := by
  cases hm : conf.metrics_enabled <;>
  cases ht : conf.test_mode <;>
  cases hdpe : conf.data_propagate_enabled <;>
  simp [preEvents, submittedOf, hm, ht, hdpe]

lemma preEvents_no_mining (conf : Conf) :
    StartEvent.spawnMiningThread ∉ preEvents conf := by
  cases hm : conf.metrics_enabled <;>
  cases ht : conf.test_mode <;>
  cases hdpe : conf.data_propagate_enabled <;>
  simp [preEvents, hm, ht, hdpe]

/-- The primitive block that a successful conversion of b yields. -/
def convOf (env : Env) (b : RpcBlock) : Block :=
  ((env.intoPrimitive b).toOption).getD 0

lemma replayLoop_ok (env : Env) (l : List RpcBlock)
    (h : ∀ b ∈ l, ∃ c, env.intoPrimitive b = Except.ok c) (evs : List StartEvent) :
    replayLoop env l evs =
      (Except.ok (), evs ++ l.map fun b => StartEvent.submitBlock (convOf env b)) := by
  induction l generalizing evs with
  | nil => simp [replayLoop, spure]
  | cons b rest ih =>
      obtain ⟨c, hc⟩ := h b (by simp)
      have hco : convOf env b = c := by simp [convOf, hc, Except.toOption]
      have ihr := ih (fun x hx => h x (by simp [hx])) (evs ++ [StartEvent.submitBlock c])
      simp [replayLoop, sbind, spure, emitEv, qmark, hc, hco, ihr]

lemma startReplay_some (conf : Conf) (env : Env) (p : String) (bs : List RpcBlock)
    (hp : conf.test_chain_path = some p)
    (hopen : env.openFile p = Except.ok ())
    (hparse : env.parseBlocks = Except.ok bs)
    (hne : bs ≠ [])
    (hconv : ∀ b ∈ bs.drop 1, ∃ c, env.intoPrimitive b = Except.ok c)
    (evs : List StartEvent) :
    startReplay conf env evs =
      (Except.ok (),
       evs ++ (bs.drop 1).map fun b => StartEvent.submitBlock (convOf env b)) := by
  have hrl := replayLoop_ok env (bs.drop 1) hconv evs
  have hbne : bs.isEmpty = false := by
    cases bs with
    | nil => exact absurd rfl hne
    | cons x xs => rfl
  simp only [startReplay, hp, bind_eq_sbind]
  rw [run_sbind_ok (a := ()) (by rw [hopen]; rfl)]
  rw [run_sbind_ok (a := bs) (by rw [hparse]; rfl)]
  rw [hbne]
  simpa using hrl

/-- Replay succeeds: no chain file is configured, or the configured file opens,
    parses to a non-empty record list, and every record after the first
    converts. -/
def ReplayOk (conf : Conf) (env : Env) : Prop :=
  ∀ p, conf.test_chain_path = some p →
    env.openFile p = Except.ok () ∧
    ∃ bs, env.parseBlocks = Except.ok bs ∧ bs ≠ [] ∧
      ∀ b ∈ bs.drop 1, ∃ c, env.intoPrimitive b = Except.ok c

lemma startReplay_ok (conf : Conf) (env : Env) (h : ReplayOk conf env)
    (evs : List StartEvent) :
    ∃ δ, startReplay conf env evs = (Except.ok (), evs ++ δ) ∧
      ∀ e ∈ δ, ∃ b, e = StartEvent.submitBlock b := by
  cases hp : conf.test_chain_path with
  | none => exact ⟨[], by simp [startReplay, hp, spure], by simp⟩
  | some p =>
      obtain ⟨hopen, bs, hparse, hne, hconv⟩ := h p hp
      refine ⟨(bs.drop 1).map fun b => StartEvent.submitBlock (convOf env b),
        startReplay_some conf env p bs hp hopen hparse hne hconv evs, ?_⟩
      intro e he
      simp only [List.mem_map] at he
      obtain ⟨b, _, hb⟩ := he
      exact ⟨convOf env b, hb.symm⟩

lemma startAuthor_run (conf : Conf) (evs : List StartEvent) :
    ∃ r, startAuthor conf evs = (r, evs) := by
  cases ha : conf.mining_author with
  | none => exact ⟨Except.ok none, by simp [startAuthor, ha, spure]⟩
  | some s =>
      cases haddr : address_from_str s with
      | ok a =>
          exact ⟨Except.ok (some a),
            by simp [startAuthor, ha, haddr, sbind, spure, expectRes]⟩
      | error e =>
          exact ⟨Except.error (Abort.panicked
              "mining-author should be 40-digit hex string without 0x marker"),
            by simp [startAuthor, ha, haddr, sbind, spure, sthrow, expectRes]⟩

lemma startAuthor_none (conf : Conf) (ha : conf.mining_author = none)
    (evs : List StartEvent) : startAuthor conf evs = (Except.ok none, evs) := by
  simp [startAuthor, ha, spure]

lemma startAuthor_bad (conf : Conf) (s : String) (ha : conf.mining_author = some s)
    (hbad : (address_from_str s).toOption = none) (evs : List StartEvent) :
    startAuthor conf evs =
      (Except.error (Abort.panicked
        "mining-author should be 40-digit hex string without 0x marker"), evs) := by
  cases haddr : address_from_str s with
  | ok a => rw [haddr] at hbad; simp [Except.toOption] at hbad
  | error e => simp [startAuthor, ha, haddr, sbind, spure, sthrow, expectRes]

lemma startTail_mining_none (conf : Conf) (env : Env)
    (hm : conf.start_mining = true) (evs : List StartEvent) :
    startTail conf env none evs =
      (Except.error (Abort.panicked
        "mining-author is not set correctly, so you will not get mining rewards!!!"),
       evs) := by
  simp [startTail, hm, sbind, sthrow]

/-- The events a run of startTail emits, in order. -/
def tailEvents (conf : Conf) (env : Env) (a : Option Nat) : List StartEvent :=
  if conf.start_mining && a.isNone then []
  else
    (if conf.start_mining then [StartEvent.spawnMiningThread] else []) ++
    (if conf.generate_tx then [StartEvent.spawnTxGenThread] else []) ++
    (match env.newHttpDebug with
     | Except.error _ => []
     | Except.ok _ => [StartEvent.bindDebugHttp] ++
        match env.newTcp with
        | Except.error _ => []
        | Except.ok _ => [StartEvent.bindTcp] ++
            match env.newHttpPublic with
            | Except.error _ => []
            | Except.ok _ => [StartEvent.bindHttp])

lemma startTail_events (conf : Conf) (env : Env) (a : Option Nat)
    (evs : List StartEvent) :
    (startTail conf env a evs).2 = evs ++ tailEvents conf env a := by
  cases a <;>
  cases hsm : conf.start_mining <;>
  cases hgt : conf.generate_tx <;>
  cases hd : env.newHttpDebug <;>
  cases ht2 : env.newTcp <;>
  cases hp2 : env.newHttpPublic <;>
  simp [startTail, tailEvents, sbind, spure, emitEv, qmark, sthrow,
    hsm, hgt, hd, ht2, hp2]

lemma tailEvents_no_submit (conf : Conf) (env : Env) (a : Option Nat) :
    submittedOf (tailEvents conf env a) = [] := by
  cases a <;>
  cases hsm : conf.start_mining <;>
  cases hgt : conf.generate_tx <;>
  cases hd : env.newHttpDebug <;>
  cases ht2 : env.newTcp <;>
  cases hp2 : env.newHttpPublic <;>
  simp [tailEvents, submittedOf, hsm, hgt, hd, ht2, hp2]

lemma submittedOf_append (l1 l2 : List StartEvent) :
    submittedOf (l1 ++ l2) = submittedOf l1 ++ submittedOf l2 := by
  simp [submittedOf, List.filterMap_append]

lemma submittedOf_map_submit (f : RpcBlock → Block) (l : List RpcBlock) :
    submittedOf (l.map fun b => StartEvent.submitBlock (f b)) = l.map f := by
  induction l with
  | nil => simp [submittedOf]
  | cons b rest ih => simp [submittedOf, List.filterMap_cons] at ih ⊢; exact ih

lemma submittedOf_of_all_submit (δ : List StartEvent)
    (h : ∀ e ∈ δ, ∃ b, e = StartEvent.submitBlock b) :
    StartEvent.spawnMiningThread ∉ δ := by
  intro hmem
  obtain ⟨b, hb⟩ := h _ hmem
  cases hb

lemma startPre_dbfail (conf : Conf) (env : Env)
    (hnet : env.netConfig = Except.ok ()) (hdb : conf.db_dir ≠ none) (e : String)
    (hopen : env.openDatabase = Except.error e) (evs : List StartEvent) :
    startPre conf env evs =
      (Except.error (Abort.errReturn ("Failed to open database " ++ e)),
       evs ++ (if conf.metrics_enabled then [StartEvent.enableMetrics] else [])) := by
  cases hdbe : conf.db_dir with
  | none => exact absurd hdbe hdb
  | some d =>
      cases hm : conf.metrics_enabled <;>
      simp [startPre, sbind, spure, emitEv, qmark, sthrow, unwrapOpt, hnet, hopen,
        hdbe, hm]

lemma startPre_netfail (conf : Conf) (env : Env)
    (hnet : env.netConfig = Except.ok ()) (hdb : conf.db_dir ≠ none)
    (hopen : env.openDatabase = Except.ok ())
    (hgen : ∀ f, env.genesisLoadFile f = Except.ok ()) (e : String)
    (hns : env.networkStart = Except.error e) (evs : List StartEvent) :
    startPre conf env evs =
      (Except.error (Abort.panicked "called unwrap on an Err value"),
       evs ++ ((if conf.metrics_enabled then [StartEvent.enableMetrics] else []) ++
         [StartEvent.spawnUsageReporter, StartEvent.initGenesis])) := by
  cases hdbe : conf.db_dir with
  | none => exact absurd hdbe hdb
  | some d =>
      cases hm : conf.metrics_enabled <;>
      cases ht : conf.test_mode <;>
      cases hga : conf.genesis_accounts <;>
      simp [startPre, sbind, spure, emitEv, qmark, sthrow, unwrapRes, unwrapOpt,
        hnet, hopen, hgen, hns, hdbe, hm, ht, hga]

lemma startPre_syncfail (conf : Conf) (env : Env)
    (hnet : env.netConfig = Except.ok ()) (hdb : conf.db_dir ≠ none)
    (hopen : env.openDatabase = Except.ok ())
    (hgen : ∀ f, env.genesisLoadFile f = Except.ok ())
    (hns : env.networkStart = Except.ok ()) (e : String)
    (hsr : env.syncRegister = Except.error e) (evs : List StartEvent) :
    startPre conf env evs =
      (Except.error (Abort.panicked "called unwrap on an Err value"),
       evs ++ ((if conf.metrics_enabled then [StartEvent.enableMetrics] else []) ++
         [StartEvent.spawnUsageReporter, StartEvent.initGenesis,
          StartEvent.startNetwork])) := by
  cases hdbe : conf.db_dir with
  | none => exact absurd hdbe hdb
  | some d =>
      cases hm : conf.metrics_enabled <;>
      cases ht : conf.test_mode <;>
      cases hga : conf.genesis_accounts <;>
      simp [startPre, sbind, spure, emitEv, qmark, sthrow, unwrapRes, unwrapOpt,
        hnet, hopen, hgen, hns, hsr, hdbe, hm, ht, hga]

/-- ReplayOk holds trivially when no chain file is configured. -/
lemma replayok_none (conf : Conf) (env : Env)
    (h : conf.test_chain_path = none) : ReplayOk conf env := by
  intro p hp
  rw [h] at hp
  cases hp

/-! ## Concrete configurations and environments for witnesses -/

/-- A minimal configuration: every optional feature off, a database directory
    configured. -/
def confBase : Conf :=
  { metrics_enabled := false, db_dir := some "blockchain_db", test_mode := false,
    genesis_accounts := none, data_propagate_enabled := false,
    test_chain_path := none, mining_author := none, start_mining := false,
    generate_tx := false }

/-- Every collaborator succeeds (the chain-file parse oracle is irrelevant
    unless a chain path is configured). -/
def envAllOk : Env :=
  { netConfig := Except.ok (), openDatabase := Except.ok (),
    genesisLoadFile := fun _ => Except.ok (), networkStart := Except.ok (),
    syncRegister := Except.ok (), dataPropRegister := Except.ok (),
    netKeyPair := Except.ok (), openFile := fun _ => Except.ok (),
    parseBlocks := Except.error "no chain file",
    intoPrimitive := fun b => Except.ok b,
    newHttpDebug := Except.ok (), newTcp := Except.ok (),
    newHttpPublic := Except.ok () }

def confC3 : Conf := { confBase with start_mining := true }

def envNetFail : Env := { envAllOk with networkStart := Except.error "bind failed" }

def envDbFail : Env := { envAllOk with openDatabase := Except.error "corrupted" }

def confC5 : Conf := { confBase with test_chain_path := some "blocks.json" }

def envC5 : Env := { envAllOk with parseBlocks := Except.ok [5, 6, 7] }

def confC6 : Conf := { confBase with test_chain_path := some "empty.json" }

def envC6 : Env := { envAllOk with parseBlocks := Except.ok [] }

def confC10 : Conf := { confBase with mining_author := some "deadbeef" }

/-! ## Claim theorems for the startup sequencer -/

/-- Claim C3 counterexample: with mining enabled and no configured author (and
    everything else healthy), start aborts with a panic; it does not return an
    error value, so no MiningConfigError is returned to the caller. -/
theorem start_mining_no_author_not_err :
    isPanicOutcome (startOutcome confC3 envAllOk) = true ∧
    isErrReturnOutcome (startOutcome confC3 envAllOk) = false := by
  constructor <;> rfl

/-- Claim C3 (amended): if mining is enabled without a configured author and
    startup reaches the mining stage, start panics (process abort) instead of
    returning a configuration error, and the mining thread is never spawned. -/
theorem start_mining_no_author_panics (conf : Conf) (env : Env)
    (hpre : PreOk conf env) (hrep : ReplayOk conf env)
    (hm : conf.start_mining = true) (ha : conf.mining_author = none) :
    isPanicOutcome (startOutcome conf env) = true ∧
    StartEvent.spawnMiningThread ∉ startEvents conf env := by
  obtain ⟨δ, hδ, hδsub⟩ := startReplay_ok conf env hrep (preEvents conf)
  have hrun : startRun conf env =
      (Except.error (Abort.panicked
        "mining-author is not set correctly, so you will not get mining rewards!!!"),
       preEvents conf ++ δ) := by
    show start conf env [] = _
    simp only [start, bind_eq_sbind]
    rw [run_sbind_ok (startPre_ok conf env hpre [])]
    simp only [List.nil_append]
    rw [run_sbind_ok hδ]
    rw [run_sbind_ok (startAuthor_none conf ha (preEvents conf ++ δ))]
    exact startTail_mining_none conf env hm (preEvents conf ++ δ)
  constructor
  · simp [startOutcome, hrun, isPanicOutcome]
  · have hev : startEvents conf env = preEvents conf ++ δ := by
      simp [startEvents, hrun]
    rw [hev]
    intro hmem
    rcases List.mem_append.mp hmem with hmem | hmem
    · exact preEvents_no_mining conf hmem
    · exact submittedOf_of_all_submit δ hδsub hmem

/-- Witness for C3 (amended) at a concrete configuration. -/
theorem start_mining_no_author_panics_witness :
    isPanicOutcome (startOutcome confC3 envAllOk) = true ∧
    StartEvent.spawnMiningThread ∉ startEvents confC3 envAllOk :=
  start_mining_no_author_panics confC3 envAllOk
    ⟨rfl, by simp [confC3, confBase], rfl, fun _ => rfl, rfl, rfl, rfl, rfl⟩
    (replayok_none confC3 envAllOk rfl) rfl rfl

/-- Claim C4 counterexample: a network-start failure (all earlier stages
    healthy) makes start abort with a panic, not return a stage-tagged error. -/
theorem start_network_failure_not_err :
    isPanicOutcome (startOutcome confBase envNetFail) = true ∧
    isErrReturnOutcome (startOutcome confBase envNetFail) = false := by
  constructor <;> rfl

/-- Claim C4 (amended): a database-open failure is returned to the caller as a
    stage-tagged error, but a network-start or sync-registration failure aborts
    the process through an unwrap panic rather than returning an error; in all
    cases no rollback is attempted — the events of already-started subsystems
    (usage reporter spawn, network start) remain in the trace. -/
theorem start_stage_failure_modes (conf : Conf) (env : Env)
    (hnet : env.netConfig = Except.ok ()) (hdb : conf.db_dir ≠ none)
    (hgen : ∀ f, env.genesisLoadFile f = Except.ok ()) :
    (∀ e, env.openDatabase = Except.error e →
      startOutcome conf env =
        Except.error (Abort.errReturn ("Failed to open database " ++ e))) ∧
    (∀ e, env.openDatabase = Except.ok () → env.networkStart = Except.error e →
      isPanicOutcome (startOutcome conf env) = true ∧
      isErrReturnOutcome (startOutcome conf env) = false ∧
      StartEvent.spawnUsageReporter ∈ startEvents conf env) ∧
    (∀ e, env.openDatabase = Except.ok () → env.networkStart = Except.ok () →
      env.syncRegister = Except.error e →
      isPanicOutcome (startOutcome conf env) = true ∧
      isErrReturnOutcome (startOutcome conf env) = false ∧
      StartEvent.spawnUsageReporter ∈ startEvents conf env ∧
      StartEvent.startNetwork ∈ startEvents conf env) := by
  refine ⟨?_, ?_, ?_⟩
  · intro e hopen
    have hrun : startRun conf env =
        (Except.error (Abort.errReturn ("Failed to open database " ++ e)),
         [] ++ (if conf.metrics_enabled then [StartEvent.enableMetrics] else [])) := by
      show start conf env [] = _
      simp only [start, bind_eq_sbind]
      exact run_sbind_err (startPre_dbfail conf env hnet hdb e hopen [])
    simp [startOutcome, hrun]
  · intro e hopen hns
    have hrun : startRun conf env =
        (Except.error (Abort.panicked "called unwrap on an Err value"),
         [] ++ ((if conf.metrics_enabled then [StartEvent.enableMetrics] else []) ++
           [StartEvent.spawnUsageReporter, StartEvent.initGenesis])) := by
      show start conf env [] = _
      simp only [start, bind_eq_sbind]
      exact run_sbind_err (startPre_netfail conf env hnet hdb hopen hgen e hns [])
    refine ⟨by simp [startOutcome, hrun, isPanicOutcome],
      by simp [startOutcome, hrun, isErrReturnOutcome], ?_⟩
    simp [startEvents, hrun]
  · intro e hopen hns hsr
    have hrun : startRun conf env =
        (Except.error (Abort.panicked "called unwrap on an Err value"),
         [] ++ ((if conf.metrics_enabled then [StartEvent.enableMetrics] else []) ++
           [StartEvent.spawnUsageReporter, StartEvent.initGenesis,
            StartEvent.startNetwork])) := by
      show start conf env [] = _
      simp only [start, bind_eq_sbind]
      exact run_sbind_err (startPre_syncfail conf env hnet hdb hopen hgen hns e hsr [])
    refine ⟨by simp [startOutcome, hrun, isPanicOutcome],
      by simp [startOutcome, hrun, isErrReturnOutcome], ?_, ?_⟩ <;>
    simp [startEvents, hrun]

/-- Witness for C4 (amended): a concrete database-open failure is returned as
    the tagged error. -/
theorem start_stage_failure_modes_witness :
    startOutcome confBase envDbFail =
      Except.error (Abort.errReturn ("Failed to open database " ++ "corrupted")) :=
  (start_stage_failure_modes confBase envDbFail rfl (by simp [confBase])
    (fun _ => rfl)).1 "corrupted" rfl

/-- Claim C5: with a recorded chain of N ≥ 2 records each of which converts,
    start submits exactly the N−1 records after the first, in file order. -/
theorem start_replay_submits_rest (conf : Conf) (env : Env) (p : String)
    (bs : List RpcBlock) (hpre : PreOk conf env)
    (hp : conf.test_chain_path = some p)
    (hopen : env.openFile p = Except.ok ())
    (hparse : env.parseBlocks = Except.ok bs)
    (hlen : 2 ≤ bs.length)
    (hconv : ∀ b ∈ bs.drop 1, ∃ c, env.intoPrimitive b = Except.ok c) :
    submittedOf (startEvents conf env) = (bs.drop 1).map (convOf env) ∧
    (submittedOf (startEvents conf env)).length = bs.length - 1 := by
  have hne : bs ≠ [] := by
    intro hcon; rw [hcon] at hlen; simp at hlen
  have hrep := startReplay_some conf env p bs hp hopen hparse hne hconv (preEvents conf)
  obtain ⟨r, har⟩ := startAuthor_run conf
    (preEvents conf ++ ((bs.drop 1).map fun b => StartEvent.submitBlock (convOf env b)))
  have hev : startEvents conf env =
      preEvents conf ++
        ((bs.drop 1).map fun b => StartEvent.submitBlock (convOf env b)) ++
        (match r with
         | Except.ok a => tailEvents conf env a
         | Except.error _ => []) := by
    show (start conf env []).2 = _
    simp only [start, bind_eq_sbind]
    rw [run_sbind_ok (startPre_ok conf env hpre [])]
    simp only [List.nil_append]
    rw [run_sbind_ok hrep]
    cases r with
    | ok a =>
        rw [run_sbind_ok har]
        simp [startTail_events]
    | error e =>
        rw [run_sbind_err har]
        simp
  have hsub : submittedOf (startEvents conf env) = (bs.drop 1).map (convOf env) := by
    rw [hev]
    rw [submittedOf_append, submittedOf_append, preEvents_no_submit,
      submittedOf_map_submit]
    cases r with
    | ok a => simp [tailEvents_no_submit]
    | error e => simp [submittedOf]
  refine ⟨hsub, ?_⟩
  rw [hsub]
  simp [List.length_map, List.length_drop]

/-- Witness for C5 at a concrete three-record chain. -/
theorem start_replay_submits_rest_witness :
    submittedOf (startEvents confC5 envC5) = [6, 7] := by
  have h := start_replay_submits_rest confC5 envC5 "blocks.json" [5, 6, 7]
    ⟨rfl, by simp [confC5, confBase], rfl, fun _ => rfl, rfl, rfl, rfl, rfl⟩
    rfl rfl rfl (by decide) (fun b _ => ⟨b, rfl⟩)
  rw [h.1]
  rfl

/-- Claim C6: a recorded chain that parses to zero records makes start return
    the replay error and submit nothing. -/
theorem start_replay_empty_error (conf : Conf) (env : Env) (p : String)
    (hpre : PreOk conf env) (hp : conf.test_chain_path = some p)
    (hopen : env.openFile p = Except.ok ())
    (hparse : env.parseBlocks = Except.ok []) :
    startOutcome conf env =
      Except.error (Abort.errReturn "Error: The json data should not be empty.") ∧
    submittedOf (startEvents conf env) = [] := by
  have hrep : startReplay conf env (preEvents conf) =
      (Except.error (Abort.errReturn "Error: The json data should not be empty."),
       preEvents conf) := by
    simp only [startReplay, hp, bind_eq_sbind]
    rw [run_sbind_ok (a := ()) (by rw [hopen]; rfl)]
    rw [run_sbind_ok (a := ([] : List RpcBlock)) (by rw [hparse]; rfl)]
    rfl
  have hrun : startRun conf env =
      (Except.error (Abort.errReturn "Error: The json data should not be empty."),
       preEvents conf) := by
    show start conf env [] = _
    simp only [start, bind_eq_sbind]
    rw [run_sbind_ok (startPre_ok conf env hpre [])]
    simp only [List.nil_append]
    exact run_sbind_err hrep
  constructor
  · simp [startOutcome, hrun]
  · have hev : startEvents conf env = preEvents conf := by simp [startEvents, hrun]
    rw [hev, preEvents_no_submit]

/-- Witness for C6 at a concrete empty chain file. -/
theorem start_replay_empty_error_witness :
    startOutcome confC6 envC6 =
      Except.error (Abort.errReturn "Error: The json data should not be empty.") :=
  (start_replay_empty_error confC6 envC6 "empty.json"
    ⟨rfl, by simp [confC6, confBase], rfl, fun _ => rfl, rfl, rfl, rfl, rfl⟩
    rfl rfl rfl).1

/-- Claim C10: a present but unparsable mining-author string makes start panic
    once startup reaches the author parse, regardless of whether mining is
    enabled, because the parse precedes the mining-enabled check. -/
theorem start_bad_author_panics (conf : Conf) (env : Env) (s : String)
    (hpre : PreOk conf env) (hrep : ReplayOk conf env)
    (ha : conf.mining_author = some s)
    (hbad : (address_from_str s).toOption = none) :
    isPanicOutcome (startOutcome conf env) = true := by
  obtain ⟨δ, hδ, _⟩ := startReplay_ok conf env hrep (preEvents conf)
  have hrun : startRun conf env =
      (Except.error (Abort.panicked
        "mining-author should be 40-digit hex string without 0x marker"),
       preEvents conf ++ δ) := by
    show start conf env [] = _
    simp only [start, bind_eq_sbind]
    rw [run_sbind_ok (startPre_ok conf env hpre [])]
    simp only [List.nil_append]
    rw [run_sbind_ok hδ]
    exact run_sbind_err (startAuthor_bad conf s ha hbad (preEvents conf ++ δ))
  simp [startOutcome, hrun, isPanicOutcome]

/-- Witness for C10: an 8-character author string with mining disabled still
    panics. -/
theorem start_bad_author_panics_witness :
    isPanicOutcome (startOutcome confC10 envAllOk) = true :=
  start_bad_author_panics confC10 envAllOk "deadbeef"
    ⟨rfl, by simp [confC10, confBase], rfl, fun _ => rfl, rfl, rfl, rfl, rfl⟩
    (replayok_none confC10 envAllOk rfl) rfl rfl

end FullNode
